import Mathlib

/-!
Verification of the animation-parameter derivation logic of
react-native-puff-pop (src/src/index.tsx).

Effect names are modelled as strings, because the source dispatches on
string keys with a silent default branch (an unrecognized name falls
through to the default case of every switch / `includes` lookup).
JavaScript numbers are modelled as rationals; every numeric literal in
the source is a decimal, so the arithmetic here is exact.
-/

namespace PuffPop

/-- The closed enumeration of effect names (the `PuffPopEffect` union type). -/
def effectKinds : List String :=
  ["scale", "rotate", "fade", "slideUp", "slideDown", "slideLeft", "slideRight",
   "bounce", "flip", "zoom", "rotateScale", "shake", "pulse", "swing", "wobble", "elastic"]

/-- The record returned by `getEffectFlags`. -/
structure EffectFlags where
  hasScale : Bool
  hasRotate : Bool
  hasFlip : Bool
  hasTranslateX : Bool
  hasTranslateY : Bool
  hasRotateEffect : Bool
  isShake : Bool
  isPulse : Bool
  isSwing : Bool
  isWobble : Bool
  isElastic : Bool
  deriving Repr, DecidableEq

/-- `getEffectFlags` (index.tsx lines 325-340): which transform channels an
effect needs, each flag an `Array.includes` test on a literal list. -/
def getEffectFlags (eff : String) : EffectFlags :=
  { hasScale := ["scale", "bounce", "zoom", "rotateScale", "flip", "pulse", "elastic"].contains eff
    hasRotate := ["rotate", "rotateScale", "swing", "wobble"].contains eff
    hasFlip := eff == "flip"
    hasTranslateX := ["slideLeft", "slideRight", "shake", "wobble"].contains eff
    hasTranslateY := ["slideUp", "slideDown", "bounce"].contains eff
    hasRotateEffect := ["rotate", "rotateScale", "flip", "swing", "wobble"].contains eff
    isShake := eff == "shake"
    isPulse := eff == "pulse"
    isSwing := eff == "swing"
    isWobble := eff == "wobble"
    isElastic := eff == "elastic" }

/-- `getInitialScale` (index.tsx lines 954-972). The second parameter is
ignored, as in the source (scale does not change with reverse). -/
def getInitialScale (effect : String) (_reverse : Bool) : ℚ :=
  if effect == "scale" || effect == "rotateScale" || effect == "elastic" then 0
  else if effect == "bounce" then 0.3
  else if effect == "zoom" then 0.5
  else if effect == "flip" then 0.8
  else if effect == "pulse" then 0.6
  else 1

/-- `getInitialRotate` (index.tsx lines 977-993). -/
def getInitialRotate (effect : String) (reverse : Bool) : ℚ :=
  let multiplier : ℚ := if reverse then -1 else 1
  if effect == "rotate" then -360 * multiplier
  else if effect == "rotateScale" then -180 * multiplier
  else if effect == "flip" then -180 * multiplier
  else if effect == "swing" then -15 * multiplier
  else if effect == "wobble" then -5 * multiplier
  else 0

/-- `getInitialTranslateX` (index.tsx lines 998-1012). -/
def getInitialTranslateX (effect : String) (reverse : Bool) : ℚ :=
  let multiplier : ℚ := if reverse then -1 else 1
  if effect == "slideLeft" then 100 * multiplier
  else if effect == "slideRight" then -100 * multiplier
  else if effect == "shake" then -10 * multiplier
  else if effect == "wobble" then -25 * multiplier
  else 0

/-- `getInitialTranslateY` (index.tsx lines 1017-1029). -/
def getInitialTranslateY (effect : String) (reverse : Bool) : ℚ :=
  let multiplier : ℚ := if reverse then -1 else 1
  if effect == "slideUp" then 50 * multiplier
  else if effect == "slideDown" then -50 * multiplier
  else if effect == "bounce" then 30 * multiplier
  else 0

/-- `const clampedIntensity = Math.max(0, Math.min(1, intensity))`
(index.tsx line 485). -/
def clampedIntensity (intensity : ℚ) : ℚ := max 0 (min 1 intensity)

/-- `getInitialOpacityValue` (index.tsx line 488): `initialOpacity ?? 0`. -/
def getInitialOpacityValue (initialOpacity : Option ℚ) : ℚ :=
  match initialOpacity with
  | some v => v
  | none => 0

/-- `getInitialScaleValue` (index.tsx lines 489-494): the custom override when
supplied, otherwise `1 - (1 - baseScale) * clampedIntensity`. -/
def getInitialScaleValue (initialScale : Option ℚ) (reverse : Bool)
    (intensity : ℚ) (eff : String) : ℚ :=
  match initialScale with
  | some v => v
  | none =>
    let baseScale := getInitialScale eff reverse
    1 - (1 - baseScale) * clampedIntensity intensity

/-- `getInitialRotateValue` (index.tsx lines 495-498). -/
def getInitialRotateValue (initialRotate : Option ℚ) (reverse : Bool)
    (intensity : ℚ) (eff : String) : ℚ :=
  match initialRotate with
  | some v => v
  | none => getInitialRotate eff reverse * clampedIntensity intensity

/-- `getInitialTranslateXValue` (index.tsx lines 499-502). -/
def getInitialTranslateXValue (initialTranslateX : Option ℚ) (reverse : Bool)
    (intensity : ℚ) (eff : String) : ℚ :=
  match initialTranslateX with
  | some v => v
  | none => getInitialTranslateX eff reverse * clampedIntensity intensity

/-- `getInitialTranslateYValue` (index.tsx lines 503-506). -/
def getInitialTranslateYValue (initialTranslateY : Option ℚ) (reverse : Bool)
    (intensity : ℚ) (eff : String) : ℚ :=
  match initialTranslateY with
  | some v => v
  | none => getInitialTranslateY eff reverse * clampedIntensity intensity

/-- The optional custom initial-value props of `PuffPopComponent`. -/
structure InitialOverrides where
  initialOpacity : Option ℚ
  initialScale : Option ℚ
  initialRotate : Option ℚ
  initialTranslateX : Option ℚ
  initialTranslateY : Option ℚ
  deriving Repr, DecidableEq

/-- The five animated scalars of one `PuffPopComponent`. -/
structure AnimatedValuesInit where
  opacity : ℚ
  scale : ℚ
  rotate : ℚ
  translateX : ℚ
  translateY : ℚ
  deriving Repr, DecidableEq

/-- Creation of the five animated values (index.tsx lines 509-513): each is
`new Animated.Value(animateOnMount ? getInitial...Value(effect) : resting)`. -/
def initialAnimatedValues (animateOnMount : Bool) (ov : InitialOverrides)
    (reverse : Bool) (intensity : ℚ) (effect : String) : AnimatedValuesInit :=
  { opacity := if animateOnMount then getInitialOpacityValue ov.initialOpacity else 1
    scale := if animateOnMount then getInitialScaleValue ov.initialScale reverse intensity effect else 1
    rotate := if animateOnMount then getInitialRotateValue ov.initialRotate reverse intensity effect else 0
    translateX := if animateOnMount then getInitialTranslateXValue ov.initialTranslateX reverse intensity effect else 0
    translateY := if animateOnMount then getInitialTranslateYValue ov.initialTranslateY reverse intensity effect else 0 }

/-- The `staggerDirection` union type of `PuffPopGroup`. -/
inductive StaggerDirection where
  | forward
  | reverse
  | center
  | edges
  deriving Repr, DecidableEq

/-- `getChildDelay` (index.tsx lines 1393-1420): per-child enter delay of
`PuffPopGroup`. `childCount` and `index` are array length and index (naturals);
the arithmetic is JavaScript number arithmetic, modelled in ℚ. -/
def getChildDelay (staggerDirection : StaggerDirection) (childCount : ℕ)
    (initialDelay staggerDelay : ℚ) (index : ℕ) : ℚ :=
  let delayIndex : ℚ :=
    match staggerDirection with
    | .reverse => (childCount : ℚ) - 1 - (index : ℚ)
    | .center =>
      let center := ((childCount : ℚ) - 1) / 2
      |(index : ℚ) - center|
    | .edges =>
      let center := ((childCount : ℚ) - 1) / 2
      center - |(index : ℚ) - center|
    | .forward => (index : ℚ)
  initialDelay + delayIndex * staggerDelay

/-- The two mutable cancellation refs of one director (index.tsx lines
519-520): `loopAnimationRef` (in-flight composite animation handle) and
`loopTimeoutRef` (pending loop-delay timer), both nullable; handles and
timer ids are abstracted as naturals. -/
structure LoopRefs where
  loopAnimation : Option ℕ
  loopTimeout : Option ℕ
  deriving Repr, DecidableEq

/-- The cancellation prologue of `animate` on the two refs, before the new
animation is started. Looping branch (`toVisible && loop`, index.tsx lines
733-743): stops/nulls `loopAnimationRef` and clears/nulls `loopTimeoutRef`.
Non-looping or exiting branch (index.tsx lines 779-784): stops/nulls
`loopAnimationRef` only; `loopTimeoutRef` is not touched there. -/
def animateCancelPhase (toVisible : Bool) (loopEnabled : Bool)
    (refs : LoopRefs) : LoopRefs :=
  if toVisible && loopEnabled then
    { loopAnimation := none, loopTimeout := none }
  else
    { loopAnimation := none, loopTimeout := refs.loopTimeout }

/-- The loop-control state of `runLoop` (index.tsx lines 745-778):
`currentIteration` is the closed-over counter (an integer, compared against
`loopCount` which is `-1` for infinite); `inFlight` records whether a run of
the composed animation is in progress or a next iteration is scheduled (via
the immediate `runLoop()` recursion or the `loopDelay` timer — both schedule
exactly one next run, so the timer indirection is collapsed); `completeCalls`
counts invocations of `onAnimationComplete`. -/
structure LoopState where
  currentIteration : ℤ
  inFlight : Bool
  completeCalls : ℕ
  deriving Repr, DecidableEq

/-- State after `runLoop()` is first called: counter `0`, one run in flight,
no completion fired. -/
def runLoopStart : LoopState :=
  { currentIteration := 0, inFlight := true, completeCalls := 0 }

/-- The completion callback passed to `animation.start` inside `runLoop`
(index.tsx lines 752-774). A callback only ever fires for a run in flight;
when it fires, that run is over. If `finished`: increment the counter, then
either schedule the next iteration (`loopCount === -1 || currentIteration <
loopCount`) or clear the handle and invoke `onAnimationComplete`. If not
`finished` (externally cancelled): nothing is incremented, nothing scheduled. -/
def loopCallback (loopCount : ℤ) (st : LoopState) (finished : Bool) : LoopState :=
  if st.inFlight then
    if finished then
      let iter := st.currentIteration + 1
      if loopCount = -1 ∨ iter < loopCount then
        { currentIteration := iter, inFlight := true, completeCalls := st.completeCalls }
      else
        { currentIteration := iter, inFlight := false, completeCalls := st.completeCalls + 1 }
    else
      { st with inFlight := false }
  else st

/-- The loop state after `runLoop()` starts and the host delivers the given
sequence of completion flags. -/
def runLoopTrace (loopCount : ℤ) (events : List Bool) : LoopState :=
  events.foldl (loopCallback loopCount) runLoopStart

/-- The two group-level refs of `PuffPopGroupComponent` (index.tsx lines
1389-1390): `completedCount` and `hasCalledStart`. -/
structure GroupCounters where
  completedCount : ℕ
  hasCalledStart : Bool
  deriving Repr, DecidableEq

/-- The visibility effect of `PuffPopGroupComponent` (index.tsx lines
1474-1479): runs on every change of `visible`, but its body is guarded by
`if (visible)` — it resets the counters only when `visible` is true. -/
def resetCountersEffect (visible : Bool) (c : GroupCounters) : GroupCounters :=
  if visible then { completedCount := 0, hasCalledStart := false } else c

/-- The §4.1 base-target table of the spec, one row per effect: written from
the spec's table, to be compared with the source's lookup functions. -/
structure SpecBaseRow where
  baseScale : ℚ
  baseRotateDeg : ℚ
  baseTranslateX : ℚ
  baseTranslateY : ℚ
  deriving Repr, DecidableEq

/-- The rows of the §4.1 table (spec side; `fade` is also the fallthrough
row, all channels resting). -/
def specBaseRow (effect : String) : SpecBaseRow :=
  if effect == "scale" then ⟨0, 0, 0, 0⟩
  else if effect == "rotateScale" then ⟨0, -180, 0, 0⟩
  else if effect == "elastic" then ⟨0, 0, 0, 0⟩
  else if effect == "rotate" then ⟨1, -360, 0, 0⟩
  else if effect == "bounce" then ⟨0.3, 0, 0, 30⟩
  else if effect == "zoom" then ⟨0.5, 0, 0, 0⟩
  else if effect == "flip" then ⟨0.8, -180, 0, 0⟩
  else if effect == "pulse" then ⟨0.6, 0, 0, 0⟩
  else if effect == "slideUp" then ⟨1, 0, 0, 50⟩
  else if effect == "slideDown" then ⟨1, 0, 0, -50⟩
  else if effect == "slideLeft" then ⟨1, 0, 100, 0⟩
  else if effect == "slideRight" then ⟨1, 0, -100, 0⟩
  else if effect == "shake" then ⟨1, 0, -10, 0⟩
  else if effect == "swing" then ⟨1, -15, 0, 0⟩
  else if effect == "wobble" then ⟨1, -5, -25, 0⟩
  else ⟨1, 0, 0, 0⟩

end PuffPop

namespace PuffPop

/-- C1: For every effect in the closed EffectKind enumeration and every
reverse flag, the base starting values of the source's lookup functions equal
the §4.1 table rows, with reverse negating baseRotateDeg, baseTranslateX and
baseTranslateY and leaving baseScale unchanged. -/
theorem base_targets_match_table (effect : String) (h : effect ∈ effectKinds)
    (reverse : Bool) :
    getInitialScale effect reverse = (specBaseRow effect).baseScale ∧
    getInitialRotate effect reverse
      = (if reverse then -1 else 1) * (specBaseRow effect).baseRotateDeg ∧
    getInitialTranslateX effect reverse
      = (if reverse then -1 else 1) * (specBaseRow effect).baseTranslateX ∧
    getInitialTranslateY effect reverse
      = (if reverse then -1 else 1) * (specBaseRow effect).baseTranslateY := by
  fin_cases h <;> cases reverse <;>
    simp +decide [getInitialScale, getInitialRotate, getInitialTranslateX,
      getInitialTranslateY, specBaseRow]

/-- Witness for C1 at effect bounce with reverse true: translateY starts at
-30 ( = -1 * 30), scale at 0.3. -/
theorem base_targets_match_table_witness :
    getInitialScale "bounce" true = (specBaseRow "bounce").baseScale ∧
    getInitialTranslateY "bounce" true
      = (if true then -1 else 1) * (specBaseRow "bounce").baseTranslateY :=
  ⟨(base_targets_match_table "bounce" (by decide) true).1,
   (base_targets_match_table "bounce" (by decide) true).2.2.2⟩

/-- C2: with no custom override, the effective starting value is the
intensity-clamped interpolation of the effect table: base * clamp(intensity)
for rotate, translateX and translateY, and 1 - (1 - base) * clamp(intensity)
for scale, where the clamp is max(0, min(1, intensity)). -/
theorem intensity_scaling_of_base_targets (effect : String) (reverse : Bool)
    (intensity : ℚ) :
    clampedIntensity intensity = max 0 (min 1 intensity) ∧
    getInitialScaleValue none reverse intensity effect
      = 1 - (1 - getInitialScale effect false) * clampedIntensity intensity ∧
    getInitialRotateValue none reverse intensity effect
      = getInitialRotate effect reverse * clampedIntensity intensity ∧
    getInitialTranslateXValue none reverse intensity effect
      = getInitialTranslateX effect reverse * clampedIntensity intensity ∧
    getInitialTranslateYValue none reverse intensity effect
      = getInitialTranslateY effect reverse * clampedIntensity intensity :=
  ⟨rfl, rfl, rfl, rfl, rfl⟩

/-- C7: a supplied custom initial-value override is the channel's starting
value exactly as given, for every effect, reverse flag and intensity; in
particular initialScale = 0.37 with intensity 0.2, reverse, effect rotate
still starts at scale 0.37. -/
theorem custom_overrides_win (effect : String) (reverse : Bool)
    (intensity : ℚ) (v : ℚ) :
    getInitialOpacityValue (some v) = v ∧
    getInitialScaleValue (some v) reverse intensity effect = v ∧
    getInitialRotateValue (some v) reverse intensity effect = v ∧
    getInitialTranslateXValue (some v) reverse intensity effect = v ∧
    getInitialTranslateYValue (some v) reverse intensity effect = v ∧
    getInitialScaleValue (some 0.37) true 0.2 "rotate" = 0.37 :=
  ⟨rfl, rfl, rfl, rfl, rfl, rfl⟩

/-- C10: when animateOnMount is false, all five animated scalars are created
at the resting values opacity 1, scale 1, rotate 0, translateX 0,
translateY 0, whatever the effect, reverse flag, intensity and overrides. -/
theorem mount_without_animation_is_resting (ov : InitialOverrides)
    (reverse : Bool) (intensity : ℚ) (effect : String) :
    initialAnimatedValues false ov reverse intensity effect
      = { opacity := 1, scale := 1, rotate := 0, translateX := 0, translateY := 0 } :=
  rfl

end PuffPop

namespace PuffPop

/-- C5: the stagger planner's enter delay is initialDelay + index * baseDelay
for forward, initialDelay + (childCount-1-index) * baseDelay for reverse,
initialDelay + |index - c| * baseDelay for center and
initialDelay + (c - |index - c|) * baseDelay for edges, with
c = (childCount-1)/2; 5 children with edges, baseDelay 10 and initialDelay 0
give the delays [0, 10, 20, 10, 0]. -/
theorem stagger_delay_formulas (childCount : ℕ) (initialDelay staggerDelay : ℚ)
    (i : ℕ) (h : i < childCount) :
    getChildDelay .forward childCount initialDelay staggerDelay i
      = initialDelay + (i : ℚ) * staggerDelay ∧
    getChildDelay .reverse childCount initialDelay staggerDelay i
      = initialDelay + ((childCount : ℚ) - 1 - (i : ℚ)) * staggerDelay ∧
    getChildDelay .center childCount initialDelay staggerDelay i
      = initialDelay + |(i : ℚ) - ((childCount : ℚ) - 1) / 2| * staggerDelay ∧
    getChildDelay .edges childCount initialDelay staggerDelay i
      = initialDelay
        + (((childCount : ℚ) - 1) / 2 - |(i : ℚ) - ((childCount : ℚ) - 1) / 2|) * staggerDelay ∧
    (List.range 5).map (getChildDelay .edges 5 0 10) = [0, 10, 20, 10, 0] := by
  refine ⟨rfl, rfl, rfl, rfl, ?_⟩
  simp [getChildDelay, List.range_succ]
  norm_num [abs_of_nonneg, abs_of_nonpos]

/-- Witness for C5 at the claim's example: 5 children, edges, baseDelay 10,
initialDelay 0, child index 2 (the middle child). -/
theorem stagger_delay_formulas_witness :
    getChildDelay .edges 5 0 10 2
      = 0 + (((5 : ℚ) - 1) / 2 - |((2 : ℕ) : ℚ) - ((5 : ℚ) - 1) / 2|) * 10 :=
  (stagger_delay_formulas 5 0 10 2 (by decide)).2.2.2.1

/-- C8: the stagger directions are mirror images: forwardDelay(i) equals
reverseDelay(childCount-1-i) for every in-range i, and
centerDelay(i) + edgesDelay(i) is the same constant
2*initialDelay + ((childCount-1)/2)*baseDelay for every i. -/
theorem stagger_mirror_symmetry (childCount : ℕ) (initialDelay staggerDelay : ℚ)
    (i : ℕ) (h : i < childCount) :
    getChildDelay .forward childCount initialDelay staggerDelay i
      = getChildDelay .reverse childCount initialDelay staggerDelay (childCount - 1 - i) ∧
    getChildDelay .center childCount initialDelay staggerDelay i
      + getChildDelay .edges childCount initialDelay staggerDelay i
      = 2 * initialDelay + ((childCount : ℚ) - 1) / 2 * staggerDelay := by
  constructor
  · show initialDelay + (i : ℚ) * staggerDelay
      = initialDelay + ((childCount : ℚ) - 1 - ((childCount - 1 - i : ℕ) : ℚ)) * staggerDelay
    have hc : ((childCount - 1 - i : ℕ) : ℚ) = (childCount : ℚ) - 1 - (i : ℚ) := by
      rw [Nat.sub_sub]
      rw [Nat.cast_sub (by omega : 1 + i ≤ childCount)]
      push_cast
      ring
    rw [hc]
    ring
  · show initialDelay + |(i : ℚ) - ((childCount : ℚ) - 1) / 2| * staggerDelay
      + (initialDelay
        + (((childCount : ℚ) - 1) / 2 - |(i : ℚ) - ((childCount : ℚ) - 1) / 2|) * staggerDelay)
      = 2 * initialDelay + ((childCount : ℚ) - 1) / 2 * staggerDelay
    ring

/-- Witness for C8 with 5 children, baseDelay 10, initialDelay 0, index 1:
the forward delay at 1 equals the reverse delay at 3, and center plus edges
at 1 equals the constant 20. -/
theorem stagger_mirror_symmetry_witness :
    getChildDelay .forward 5 0 10 1 = getChildDelay .reverse 5 0 10 3 ∧
    getChildDelay .center 5 0 10 1 + getChildDelay .edges 5 0 10 1
      = 2 * 0 + ((5 : ℚ) - 1) / 2 * 10 :=
  ⟨(stagger_mirror_symmetry 5 0 10 1 (by decide)).1,
   (stagger_mirror_symmetry 5 0 10 1 (by decide)).2⟩

/-- A completion callback delivered when no run is in flight changes
nothing (helper for the loop claims). -/
theorem loopCallback_stopped (loopCount : ℤ) (st : LoopState) (events : List Bool)
    (h : st.inFlight = false) :
    events.foldl (loopCallback loopCount) st = st := by
  induction events with
  | nil => rfl
  | cons e rest ih =>
    have hstep : loopCallback loopCount st e = st := by
      simp [loopCallback, h]
    simp [List.foldl_cons, hstep, ih]

/-- C4: with loop = 3 and visible entry, three finished completions advance
the iteration counter to exactly 3 and fire onAnimationComplete exactly once;
no later event fires it a fourth time (after the third finished iteration the
state is inert), two finished completions do not fire it yet, and a
finished = false callback neither increments the counter nor schedules a
next iteration. -/
theorem loop_three_completes_once (rest : List Bool) (st : LoopState) :
    (runLoopTrace 3 [true, true]).completeCalls = 0 ∧
    (runLoopTrace 3 [true, true, true]).currentIteration = 3 ∧
    (runLoopTrace 3 [true, true, true]).completeCalls = 1 ∧
    (runLoopTrace 3 ([true, true, true] ++ rest)).currentIteration = 3 ∧
    (runLoopTrace 3 ([true, true, true] ++ rest)).completeCalls = 1 ∧
    (loopCallback 3 st false).currentIteration = st.currentIteration ∧
    (loopCallback 3 st false).completeCalls = st.completeCalls ∧
    (loopCallback 3 st false).inFlight = false := by
  have h3 : runLoopTrace 3 [true, true, true]
      = { currentIteration := 3, inFlight := false, completeCalls := 1 } := by
    decide
  have happ : runLoopTrace 3 ([true, true, true] ++ rest)
      = { currentIteration := 3, inFlight := false, completeCalls := 1 } := by
    unfold runLoopTrace
    rw [List.foldl_append]
    have : [true, true, true].foldl (loopCallback 3) runLoopStart
        = { currentIteration := 3, inFlight := false, completeCalls := 1 } := h3
    rw [this]
    exact loopCallback_stopped 3 _ rest rfl
  have hfalse : loopCallback 3 st false
      = if st.inFlight then { st with inFlight := false } else st := by
    simp [loopCallback]
  refine ⟨by decide, by rw [h3], by rw [h3], by rw [happ], by rw [happ], ?_, ?_, ?_⟩ <;>
    · rw [hfalse]
      cases hst : st.inFlight <;> simp [hst]

/-- C3 counterexample: an exiting animate call (toVisible = false) with loop
enabled and a pending loop-delay timer leaves the timer pending — the
non-looping branch of animate clears only the animation handle, so the
claimed clears-both-on-every-call invariant is false at this input. -/
theorem animate_cancel_counterexample :
    (animateCancelPhase false true
        { loopAnimation := none, loopTimeout := some 7 }).loopTimeout ≠ none := by
  decide

/-- C3 amended: every animate call first clears the in-flight loop animation
handle, but only the looping branch (toVisible with loop enabled) also clears
the pending loop-delay timer; the non-looping/exiting branch leaves the
timer ref untouched. -/
theorem animate_cancel_amended (toVisible loopEnabled : Bool) (refs : LoopRefs) :
    (animateCancelPhase toVisible loopEnabled refs).loopAnimation = none ∧
    ((toVisible && loopEnabled) = true →
      (animateCancelPhase toVisible loopEnabled refs).loopTimeout = none) ∧
    ((toVisible && loopEnabled) = false →
      (animateCancelPhase toVisible loopEnabled refs).loopTimeout = refs.loopTimeout) := by
  cases toVisible <;> cases loopEnabled <;> simp [animateCancelPhase]

/-- Witness for the amended C3: a looping animate call with a stale handle
and a pending timer clears both; an exiting call with a pending timer keeps
it. -/
theorem animate_cancel_amended_witness :
    (animateCancelPhase true true
        { loopAnimation := some 1, loopTimeout := some 7 }).loopTimeout = none ∧
    (animateCancelPhase false true
        { loopAnimation := some 1, loopTimeout := some 7 }).loopTimeout = some 7 :=
  ⟨(animate_cancel_amended true true
      { loopAnimation := some 1, loopTimeout := some 7 }).2.1 rfl,
   (animate_cancel_amended false true
      { loopAnimation := some 1, loopTimeout := some 7 }).2.2 rfl⟩

/-- C6 counterexample: the visibility effect with visible = false leaves the
completed-child counter at 2 and the first-start latch set — it does not
reset on a transition to hidden, so the claimed reset in both directions is
false at this input. -/
theorem group_reset_counterexample :
    resetCountersEffect false { completedCount := 2, hasCalledStart := true }
      ≠ { completedCount := 0, hasCalledStart := false } := by
  decide

/-- C6 amended: the completed-child counter and first-start latch are reset
to zero/false only by visibility effect runs with visible = true; a run with
visible = false leaves both unchanged. Each transition to visible therefore
still re-arms the group-level callbacks. -/
theorem group_reset_amended (c : GroupCounters) :
    resetCountersEffect true c = { completedCount := 0, hasCalledStart := false } ∧
    resetCountersEffect false c = c :=
  ⟨rfl, rfl⟩

/-- C9: an effect name outside the EffectKind enumeration yields fade-only
behaviour: all five capability flags are false and the base starting values
are the resting values scale 1, rotate 0, translateX 0, translateY 0 (the
lookup functions are total, so nothing throws). -/
theorem unknown_effect_is_fade_only (effect : String) (reverse : Bool)
    (h : effect ∉ effectKinds) :
    (getEffectFlags effect).hasScale = false ∧
    (getEffectFlags effect).hasRotate = false ∧
    (getEffectFlags effect).hasFlip = false ∧
    (getEffectFlags effect).hasTranslateX = false ∧
    (getEffectFlags effect).hasTranslateY = false ∧
    getInitialScale effect reverse = 1 ∧
    getInitialRotate effect reverse = 0 ∧
    getInitialTranslateX effect reverse = 0 ∧
    getInitialTranslateY effect reverse = 0 := by
  simp only [effectKinds, List.mem_cons, List.not_mem_nil, or_false, not_or] at h
  obtain ⟨h1, h2, h3, h4, h5, h6, h7, h8, h9, h10, h11, h12, h13, h14, h15, h16⟩ := h
  refine ⟨?_, ?_, ?_, ?_, ?_, ?_, ?_, ?_, ?_⟩ <;>
    simp [getEffectFlags, getInitialScale, getInitialRotate, getInitialTranslateX,
      getInitialTranslateY, List.contains,
      h1, h2, h3, h4, h5, h6, h7, h8, h9, h10, h11, h12, h13, h14, h15, h16]

/-- Witness for C9 at the unrecognized effect name explode with reverse
true: no scale capability, and the base scale is the resting value 1. -/
theorem unknown_effect_is_fade_only_witness :
    (getEffectFlags "explode").hasScale = false ∧
    getInitialScale "explode" true = 1 :=
  ⟨(unknown_effect_is_fade_only "explode" true (by decide)).1,
   (unknown_effect_is_fade_only "explode" true (by decide)).2.2.2.2.2.1⟩

end PuffPop
